import Mathlib

/-!
Verification of the Pomodoro timer logic of src/script.js.

The timer state machine is embedded shallowly: the mutable module-level
`state` object becomes the structure `Pomolo.State`, the closure variable
`lastTime` of startTimer's animation loop is carried as an extra field, and
every operation of the script becomes a pure Lean function on that state.
Audio is tracked as data: `completeSession` returns the sound kind it hands
to `playSound` (or `none`), and `playSound` returns the cue profile it
selects. DOM rendering has no state effect and is not modelled.
-/

namespace Pomolo

/-- Session modes, the string constants WORK, SHORT, LONG of script.js. -/
inductive Mode where
  | WORK
  | SHORT
  | LONG
  deriving DecidableEq, Repr

/-- The configuration record (shape of config / DEFAULTS in script.js).
Durations are in minutes. -/
structure Config where
  work : Int
  short : Int
  long : Int
  auto : Bool
  sound : String
  deriving DecidableEq, Repr

/-- Configuration defaults (script.js lines 6-12). -/
def DEFAULTS : Config :=
  { work := 25, short := 5, long := 15, auto := false, sound := "bell" }

/-- The mutable timer state (script.js lines 16-22). `lastTime` models the
closure variable of startTimer's animation loop; the timerInterval handle is
not modelled because the loop's own `isRunning` guard already makes stale
frames inert. -/
structure State where
  mode : Mode
  timeRemaining : Int
  isRunning : Bool
  cycleCount : Nat
  lastTime : Int
  deriving DecidableEq, Repr

/-- The initial state literal of script.js (lines 16-22). -/
def initState : State :=
  { mode := Mode.WORK, timeRemaining := 0, isRunning := false,
    cycleCount := 1, lastTime := 0 }

/-- Whitespace skipped by JS parseInt before reading a number. -/
def isJsSpace (c : Char) : Bool :=
  c = ' ' || c = '\t' || c = '\n' || c = '\r' ||
    c = Char.ofNat 11 || c = Char.ofNat 12

/-- Decimal digit value of a character, none for a non-digit. -/
def decDigitVal (c : Char) : Option Nat :=
  if '0' ≤ c ∧ c ≤ '9' then some (c.toNat - 48) else none

/-- Hexadecimal digit value of a character, none for a non-digit. -/
def hexDigitVal (c : Char) : Option Nat :=
  if '0' ≤ c ∧ c ≤ '9' then some (c.toNat - 48)
  else if 'a' ≤ c ∧ c ≤ 'f' then some (c.toNat - 87)
  else if 'A' ≤ c ∧ c ≤ 'F' then some (c.toNat - 55)
  else none

/-- Value of the longest digit prefix of the list, accumulator style. -/
def digitsAux (f : Char → Option Nat) (base : Nat) : List Char → Nat → Nat
  | [], acc => acc
  | c :: cs, acc =>
    match f c with
    | some d => digitsAux f base cs (acc * base + d)
    | none => acc

/-- Value of the longest digit prefix, none when the first character is not
a digit (JS parseInt yields NaN then). -/
def digitsVal (f : Char → Option Nat) (base : Nat) : List Char → Option Nat
  | [] => none
  | c :: cs =>
    match f c with
    | some _ => some (digitsAux f base (c :: cs) 0)
    | none => none

/-- Magnitude part of JS parseInt with no radix argument: a 0x/0X prefix
selects base 16, anything else is read in base 10. -/
def jsParseMagnitude : List Char → Option Nat
  | '0' :: 'x' :: cs => digitsVal hexDigitVal 16 cs
  | '0' :: 'X' :: cs => digitsVal hexDigitVal 16 cs
  | cs => digitsVal decDigitVal 10 cs

/-- JS parseInt(string): skip whitespace, optional sign, longest digit
prefix; none models NaN (script.js line 67 applies parseInt to the raw
query value). -/
def jsParseInt (str : String) : Option Int :=
  match str.data.dropWhile isJsSpace with
  | '-' :: cs => (jsParseMagnitude cs).map (fun n => -(n : Int))
  | '+' :: cs => (jsParseMagnitude cs).map (fun n => (n : Int))
  | cs => (jsParseMagnitude cs).map (fun n => (n : Int))

/-- script.js getPositiveIntParam (lines 66-72). The parameter is the raw
query value, none when the key is absent (parseInt(null) is NaN). -/
def getPositiveIntParam (p : Option String) (defaultVal : Int) : Int :=
  match p.bind jsParseInt with
  | some val => if val > 0 then val else defaultVal
  | none => defaultVal

/-- The raw query parameters read by parseUrlParams. -/
structure UrlParams where
  work : Option String
  short : Option String
  long : Option String
  auto : Option String
  sound : Option String

/-- script.js parseUrlParams (lines 47-64): config starts from DEFAULTS,
durations go through getPositiveIntParam, auto is set only when the
parameter is present, sound is overwritten by any truthy (non-empty)
string with no validation against the bell/chime/none enumeration. -/
def parseUrlParams (ps : UrlParams) : Config :=
  { work := getPositiveIntParam ps.work DEFAULTS.work
    short := getPositiveIntParam ps.short DEFAULTS.short
    long := getPositiveIntParam ps.long DEFAULTS.long
    auto :=
      match ps.auto with
      | none => DEFAULTS.auto
      | some a => a == "true" || a == "1"
    sound :=
      match ps.sound with
      | none => DEFAULTS.sound
      | some sp => if sp = "" then DEFAULTS.sound else sp }

/-- script.js setModeTime (lines 110-118). -/
def setModeTime (cfg : Config) (s : State) : State :=
  match s.mode with
  | Mode.WORK => { s with timeRemaining := cfg.work * 60 }
  | Mode.SHORT => { s with timeRemaining := cfg.short * 60 }
  | Mode.LONG => { s with timeRemaining := cfg.long * 60 }

/-- script.js resetCycle (lines 102-108): mode=WORK, cycleCount=1, the
mode's full duration, not running. -/
def resetCycle (cfg : Config) (s : State) : State :=
  { setModeTime cfg { s with mode := Mode.WORK, cycleCount := 1 } with
      isRunning := false }

/-- script.js startTimer (lines 120-148): early return when already
running, else set running and capture the monotonic clock value as the
loop origin. -/
def startTimer (now : Int) (s : State) : State :=
  if s.isRunning then s
  else { s with isRunning := true, lastTime := now }

/-- script.js pauseTimer (lines 150-156): clears the running flag (the
cancelled animation frame is represented by `tick` being inert on a
non-running state). -/
def pauseTimer (s : State) : State :=
  { s with isRunning := false }

/-- The two audio cue profiles of script.js playSound (lines 258-284). -/
inductive CueProfile where
  | bell
  | chime
  deriving DecidableEq, Repr

/-- Cue-profile selection of script.js playSound: an explicit bell branch,
every other string falls into the chime branch. -/
def playSound (type : String) : CueProfile :=
  if type = "bell" then CueProfile.bell else CueProfile.chime

/-- script.js completeSession (lines 163-212). The second component is the
sound kind handed to playSound, none when no cue is requested. -/
def completeSession (cfg : Config) (skipped : Bool) (now : Int) (s : State) :
    State × Option String :=
  let s1 := pauseTimer s
  let s1 := { s1 with timeRemaining := 0 }
  let played := if !skipped && (cfg.sound != "none") then some cfg.sound else none
  let s2 :=
    match s1.mode with
    | Mode.WORK =>
      if s1.cycleCount % 4 = 0 then
        if 3 ≤ s1.cycleCount then { s1 with mode := Mode.LONG }
        else { s1 with mode := Mode.SHORT }
      else { s1 with mode := Mode.SHORT }
    | Mode.SHORT => { s1 with mode := Mode.WORK, cycleCount := s1.cycleCount + 1 }
    | Mode.LONG => { s1 with mode := Mode.WORK, cycleCount := 1 }
  let s3 := setModeTime cfg s2
  (if cfg.auto then startTimer now s3 else s3, played)

/-- script.js skipSession (lines 158-161). -/
def skipSession (cfg : Config) (now : Int) (s : State) : State × Option String :=
  completeSession cfg true now (pauseTimer s)

/-- One invocation of startTimer's animation-frame loop body at monotonic
time currentTime (script.js lines 127-145): inert unless running; when at
least 1000 ms elapsed since the accounted origin, decrement once and move
the origin to currentTime; completion fires when the counter reaches 0. -/
def tick (cfg : Config) (currentTime : Int) (s : State) : State × Option String :=
  if s.isRunning then
    if currentTime - s.lastTime ≥ 1000 then
      if s.timeRemaining - 1 ≤ 0 then
        completeSession cfg false currentTime
          { s with timeRemaining := s.timeRemaining - 1, lastTime := currentTime }
      else
        ({ s with timeRemaining := s.timeRemaining - 1, lastTime := currentTime }, none)
    else (s, none)
  else (s, none)

/-- Fold a list of frame times through `tick`, dropping cue events. -/
def runTicks (cfg : Config) : List Int → State → State
  | [], s => s
  | t :: ts, s => runTicks cfg ts (tick cfg t s).1

/-- Startup: init() applies resetCycle to the initial literal
(script.js lines 40-45). -/
def initTimer (cfg : Config) : State := resetCycle cfg initState

/-- One completeSession(false) step; the clock argument is irrelevant when
auto-advance is off. -/
def completeStep (cfg : Config) (s : State) : State :=
  (completeSession cfg false 0 s).1

/-- Iterated completeSession(false) from startup. -/
def completeTrace (cfg : Config) : Nat → State
  | 0 => initTimer cfg
  | n + 1 => completeStep cfg (completeTrace cfg n)

/-- The 1-minute, auto-advancing, silent configuration of the spec's
auto-advance scenario. -/
def cfgOneMin : Config :=
  { work := 1, short := 1, long := 1, auto := true, sound := "none" }

/-! ## Helper lemmas -/

/-- The cue event of completeSession depends only on the skipped flag and
the configured sound kind. -/
theorem completeSession_snd (cfg : Config) (skipped : Bool) (now : Int) (s : State) :
    (completeSession cfg skipped now s).2 =
      if !skipped && (cfg.sound != "none") then some cfg.sound else none := rfl

/-- A tick on a non-running state changes nothing. -/
theorem tick_not_running (cfg : Config) (t : Int) (s : State)
    (h : s.isRunning = false) : tick cfg t s = (s, none) := by
  simp [tick, h]

/-- A tick before a full second has elapsed changes nothing. -/
theorem tick_small (cfg : Config) (t : Int) (s : State)
    (hd : ¬ t - s.lastTime ≥ 1000) : tick cfg t s = (s, none) := by
  unfold tick
  by_cases hr : s.isRunning <;> simp [hr, hd]

/-- A tick on a running state with a full second elapsed and more than one
second on the clock decrements once and re-anchors the loop origin. -/
theorem tick_dec (cfg : Config) (t : Int) (s : State)
    (hr : s.isRunning = true) (hd : t - s.lastTime ≥ 1000)
    (hpos : 1 < s.timeRemaining) :
    tick cfg t s =
      ({ s with timeRemaining := s.timeRemaining - 1, lastTime := t }, none) := by
  unfold tick
  rw [if_pos hr, if_pos hd, if_neg (by omega)]

/-! ## Claim theorems -/

/-- C1: what completeSession actually does from startup with auto-advance
off. Immediately before the third WORK completion the state is WORK with
cycleCount 3, yet that completion transitions to SHORT, not LONG: the
`cycleCount % 4 === 0` guard means the mode trace of the first eight
completions is WORK, SHORT, WORK, SHORT, WORK, SHORT, WORK, LONG, WORK,
with the long break only after a fourth work session, after which the
cycle counter resets to 1. -/
theorem thirdWorkCompletionGoesShort :
    (completeTrace DEFAULTS 4).mode = Mode.WORK ∧
    (completeTrace DEFAULTS 4).cycleCount = 3 ∧
    (completeTrace DEFAULTS 5).mode = Mode.SHORT ∧
    ((List.range 9).map fun n => (completeTrace DEFAULTS n).mode) =
      [Mode.WORK, Mode.SHORT, Mode.WORK, Mode.SHORT, Mode.WORK,
       Mode.SHORT, Mode.WORK, Mode.LONG, Mode.WORK] ∧
    (completeTrace DEFAULTS 8).cycleCount = 1 := by
  decide

/-- C2: the cycle counter escapes the claimed range [1,3]: six
completeSession(false) steps from startup (three full work sessions and
three short breaks, each reachable through skip as well) leave
cycleCount = 4, which the render sink would display as "Cycle 4/3". -/
theorem cycleCountReachesFour :
    (completeTrace DEFAULTS 6).cycleCount = 4 := by
  decide

/-- C3 counterexample: two frames 1.5 s apart while running (irregular
intervals summing to exactly 3 real seconds, mode unchanged throughout)
decrement remainingSeconds by 2, not by floor(3) = 3: each qualifying tick
subtracts exactly 1 and re-anchors the origin at the frame time, so the
fractional half-second of each frame is discarded, not carried. -/
theorem tickRemainderDroppedCounterexample :
    (startTimer 0 (initTimer DEFAULTS)).timeRemaining -
        (runTicks DEFAULTS [1500, 3000]
          (startTimer 0 (initTimer DEFAULTS))).timeRemaining = 2 ∧
    ((3000 - 0 : Int) / 1000 = 3) ∧ ((2 : Int) ≠ 3) := by
  decide

/-- C3 amended: while running continuously in one mode (enough time on the
clock that no completion fires), a tick decrements by exactly 1 only when
at least 1000 ms elapsed since the accounted origin, re-anchoring the
origin to the frame time and discarding any remainder; hence over any
frame sequence bounded by time tmax the total decrement is at most
floor((tmax - origin)/1000) — never more than the elapsed whole seconds,
but possibly fewer, since no fractional carry is performed. -/
theorem runTicks_decrement_le (cfg : Config) (ts : List Int) (s : State) (tmax : Int)
    (hrun : s.isRunning = true)
    (hrem : (ts.length : Int) < s.timeRemaining)
    (hlast : s.lastTime ≤ tmax)
    (hts : ∀ t ∈ ts, t ≤ tmax) :
    1000 * (s.timeRemaining - (runTicks cfg ts s).timeRemaining) ≤
      tmax - s.lastTime := by
  induction ts generalizing s with
  | nil =>
    simp only [runTicks]
    omega
  | cons t rest ih =>
    have htt : t ≤ tmax := hts t (List.mem_cons_self t rest)
    have hrest : ∀ u ∈ rest, u ≤ tmax := fun u hu => hts u (List.mem_cons_of_mem t hu)
    have hlen : ((rest.length : Int)) < s.timeRemaining - 1 := by
      simp only [List.length_cons] at hrem
      push_cast at hrem
      omega
    have hnn : (0 : Int) ≤ (rest.length : Int) := Int.natCast_nonneg _
    by_cases hd : t - s.lastTime ≥ 1000
    · have hpos : 1 < s.timeRemaining := by omega
      simp only [runTicks, tick_dec cfg t s hrun hd hpos]
      have h2 := ih { s with timeRemaining := s.timeRemaining - 1, lastTime := t }
        (by simp [hrun]) (by simp; omega) (by simpa using htt) hrest
      simp only at h2 ⊢
      omega
    · simp only [runTicks, tick_small cfg t s hd]
      have h2 := ih s hrun (by omega) hlast hrest
      omega

/-- C3 amended, witnessed at the counterexample run: the decrement over
the frames at 1500 and 3000 is 2, within the floor bound of 3 seconds. -/
theorem runTicks_decrement_le_witness :
    (startTimer 0 (initTimer DEFAULTS)).isRunning = true ∧
    1000 * ((startTimer 0 (initTimer DEFAULTS)).timeRemaining -
        (runTicks DEFAULTS [1500, 3000]
          (startTimer 0 (initTimer DEFAULTS))).timeRemaining) ≤
      3000 - (startTimer 0 (initTimer DEFAULTS)).lastTime :=
  ⟨by decide,
   runTicks_decrement_le DEFAULTS [1500, 3000] (startTimer 0 (initTimer DEFAULTS))
     3000 (by decide) (by decide) (by decide) (by decide)⟩

set_option maxRecDepth 8000 in
/-- C4: with work=short=long=1, autoAdvance on and soundKind none, after
start() at time 0 and 60 one-second frames the scheduler has completed the
first work session and auto-advanced: mode SHORT, remainingSeconds 60,
running, cycle counter still 1. -/
theorem autoAdvanceScenario :
    (runTicks cfgOneMin ((List.range 60).map fun i => 1000 * ((i : Int) + 1))
        (startTimer 0 (initTimer cfgOneMin))).mode = Mode.SHORT ∧
    (runTicks cfgOneMin ((List.range 60).map fun i => 1000 * ((i : Int) + 1))
        (startTimer 0 (initTimer cfgOneMin))).timeRemaining = 60 ∧
    (runTicks cfgOneMin ((List.range 60).map fun i => 1000 * ((i : Int) + 1))
        (startTimer 0 (initTimer cfgOneMin))).isRunning = true ∧
    (runTicks cfgOneMin ((List.range 60).map fun i => 1000 * ((i : Int) + 1))
        (startTimer 0 (initTimer cfgOneMin))).cycleCount = 1 := by
  decide

/-- C5: skip() completes the current session without requesting any audio
cue, whatever the mode, cycle position and configured sound kind; and a
non-skipped completion requests a cue exactly when the configured sound
kind is not the string none. -/
theorem skipNeverPlaysCue (cfg : Config) (now : Int) (s : State) :
    (skipSession cfg now s).2 = none ∧
    (completeSession cfg false now s).2 =
      (if cfg.sound = "none" then none else some cfg.sound) := by
  constructor
  · rw [skipSession, completeSession_snd]
    simp
  · rw [completeSession_snd]
    by_cases h : cfg.sound = "none" <;> simp [h]

/-- Packaging of getPositiveIntParam's fallback branch: when the parsed
value is NaN (none) or non-positive, the default is returned. -/
theorem getPositiveIntParam_nonpos (p : Option String) (d : Int)
    (h : (p.bind jsParseInt).getD 0 ≤ 0) :
    getPositiveIntParam p d = d := by
  unfold getPositiveIntParam
  cases hp : p.bind jsParseInt with
  | none => rfl
  | some v =>
    rw [hp] at h
    simp only [Option.getD_some] at h
    show (if v > 0 then v else d) = d
    rw [if_neg (by omega)]

/-- C6: for each duration parameter, a startup value whose parseInt result
is NaN or not a positive integer leaves the configured duration at its
default (work 25, short 5, long 15). -/
theorem durationFallback (ps : UrlParams) :
    (((ps.work.bind jsParseInt).getD 0 ≤ 0) → (parseUrlParams ps).work = 25)
  ∧ (((ps.short.bind jsParseInt).getD 0 ≤ 0) → (parseUrlParams ps).short = 5)
  ∧ (((ps.long.bind jsParseInt).getD 0 ≤ 0) → (parseUrlParams ps).long = 15) := by
  refine ⟨fun h => ?_, fun h => ?_, fun h => ?_⟩ <;>
    simpa [parseUrlParams, DEFAULTS] using getPositiveIntParam_nonpos _ _ h

/-- C6, witnessed at work=-5: the parsed value -5 is non-positive and the
resulting work duration is the default 25. -/
theorem durationFallback_witness :
    (((some "-5").bind jsParseInt).getD 0 ≤ 0) ∧
    (parseUrlParams
        { work := some "-5", short := none, long := none, auto := none, sound := none }).work
      = 25 :=
  ⟨by decide,
   (durationFallback
      { work := some "-5", short := none, long := none, auto := none, sound := none }).1
     (by decide)⟩

/-- C7: start() on an already-running state is a no-op: the early return
leaves every field unchanged, in particular remainingSeconds, mode, the
cycle counter and the accounted loop origin, and no second loop state is
created. -/
theorem startTimerIdempotentWhenRunning (now : Int) (s : State)
    (h : s.isRunning = true) : startTimer now s = s := by
  unfold startTimer
  rw [if_pos h]

/-- C7, witnessed on the freshly started default state. -/
theorem startTimerIdempotentWhenRunning_witness :
    (startTimer 0 (initTimer DEFAULTS)).isRunning = true ∧
    startTimer 500 (startTimer 0 (initTimer DEFAULTS)) =
      startTimer 0 (initTimer DEFAULTS) :=
  ⟨by decide, startTimerIdempotentWhenRunning 500 _ (by decide)⟩

/-- C8: pause() preserves remainingSeconds, mode and the cycle counter,
only clears the running flag (after which every tick is inert), and on an
already-paused state it leaves the entire state unchanged. -/
theorem pauseTimerFrame (cfg : Config) (s : State) :
    (pauseTimer s).timeRemaining = s.timeRemaining ∧
    (pauseTimer s).mode = s.mode ∧
    (pauseTimer s).cycleCount = s.cycleCount ∧
    (pauseTimer s).isRunning = false ∧
    (∀ t, (tick cfg t (pauseTimer s)).1 = pauseTimer s) ∧
    (s.isRunning = false → pauseTimer s = s) := by
  refine ⟨rfl, rfl, rfl, rfl, fun t => ?_, fun h => ?_⟩
  · rw [tick_not_running cfg t (pauseTimer s) rfl]
  · cases s
    simp_all [pauseTimer]

/-- C8, witnessed on the paused startup state. -/
theorem pauseTimerFrame_witness :
    initState.isRunning = false ∧ pauseTimer initState = initState :=
  ⟨by decide, (pauseTimerFrame DEFAULTS initState).2.2.2.2.2 (by decide)⟩

/-- C9: from any state, reset yields mode WORK, cycle counter 1,
remainingSeconds work*60 and not running, and every subsequent tick leaves
that state unchanged until the next start(). -/
theorem resetCycleSpec (cfg : Config) (s : State)
    (_hw : 0 < cfg.work) (_hs : 0 < cfg.short) (_hl : 0 < cfg.long) :
    (resetCycle cfg s).mode = Mode.WORK ∧
    (resetCycle cfg s).cycleCount = 1 ∧
    (resetCycle cfg s).timeRemaining = cfg.work * 60 ∧
    (resetCycle cfg s).isRunning = false ∧
    ∀ t, (tick cfg t (resetCycle cfg s)).1 = resetCycle cfg s :=
  ⟨rfl, rfl, rfl, rfl, fun t => by rw [tick_not_running cfg t _ rfl]⟩

/-- C9, witnessed on the default configuration. -/
theorem resetCycleSpec_witness :
    ((0 : Int) < DEFAULTS.work) ∧ (resetCycle DEFAULTS initState).mode = Mode.WORK :=
  ⟨by decide,
   (resetCycleSpec DEFAULTS initState (by decide) (by decide) (by decide)).1⟩

/-- C10: the sound startup parameter is stored without validation — any
non-empty string becomes the configured sound kind, only an absent or
empty parameter keeps the default bell — and on a non-skipped completion
any stored kind other than the exact strings bell and none selects the
chime cue profile rather than falling back to bell. -/
theorem soundParamNotValidated (ps : UrlParams) (cfg : Config) (now : Int) (s : State) :
    (∀ k, ps.sound = some k → k ≠ "" → (parseUrlParams ps).sound = k)
  ∧ ((ps.sound = none ∨ ps.sound = some "") → (parseUrlParams ps).sound = "bell")
  ∧ (cfg.sound ≠ "bell" → cfg.sound ≠ "none" →
      ((completeSession cfg false now s).2).map playSound = some CueProfile.chime) := by
  refine ⟨fun k hk hne => ?_, fun h => ?_, fun hb hn => ?_⟩
  · simp [parseUrlParams, hk, hne]
  · rcases h with h | h <;> simp [parseUrlParams, h, DEFAULTS]
  · rw [completeSession_snd]
    simp [bne_iff_ne, hn, playSound, hb]

/-- C10, witnessed at the stored sound kind "ding". -/
theorem soundParamNotValidated_witness :
    ("ding" ≠ "bell") ∧ ("ding" ≠ "none") ∧
    ((completeSession { DEFAULTS with sound := "ding" } false 0 initState).2).map
        playSound = some CueProfile.chime :=
  ⟨by decide, by decide,
   (soundParamNotValidated
      { work := none, short := none, long := none, auto := none, sound := some "ding" }
      { DEFAULTS with sound := "ding" } 0 initState).2.2 (by decide) (by decide)⟩

end Pomolo
